/-
Verification of the progress-reporting subsystem in `S3/Progress.py`
(classes `Progress`, `ProgressANSI`, `ProgressCR`, `StatsInfo`).

Modelling conventions:
* Python ints are `Int`; Python floor division `//` is `Int.fdiv` and the
  matching remainder is `Int.fmod`.
* Wall-clock timestamps (both `datetime.datetime.now()` and `time.time()`)
  are modelled as integers: time is sampled at integer instants, and every
  comparison the code performs (`t - last > 1`, `sec_elapsed > 0`,
  `sec_elapsed == 0`) is preserved on that domain.  The reconstruction
  `days*86400 + seconds + microseconds/1e6` of a `timedelta` as a float is,
  on this model, the identity `time_current - time_start`.
* Python float values that only flow into output text (transfer rates,
  scaled sizes) are carried as exact rationals `ℚ`; the string renderers
  below read their `num`/`den` fields directly.
* A method is modelled as a function from the receiver state (plus the
  sampled clock) to a `DispResult`: the updated state, the text written to
  the output sink during the call, and `some e` when the call raises the
  Python exception `e`.  Attribute assignments that happen before a raise
  are reflected in the returned state, exactly as in Python.
* The class attribute `Progress._last_display = 0` is never assigned at
  class level again; `self._last_display = time.time()` inside
  `_display_needed` creates an *instance* attribute.  The model keeps the
  instance attribute as `lastDisplay : Option Int` (`none` = not yet set on
  this instance) and attribute lookup falls back to the class value `0`.
-/
import Mathlib

set_option linter.unusedVariables false

/-! ## Data model -/

/-- The `labels` dictionary handed to `Progress.__init__` / `new_file`. -/
structure TransferLabels where
  action : String
  source : String
  destination : String
  extra : String
deriving DecidableEq

/-- The mutable attributes of a `Progress` object (shared by the two
subclasses, which add no attributes of their own). -/
structure ProgressState where
  labels : TransferLabels
  total_size : Int
  initial_position : Int
  current_position : Int
  time_start : Int
  time_last : Int
  time_current : Int
  /-- `last_milestone`, used only by the base-class `display`. -/
  last_milestone : Int
  /-- The instance attribute `_last_display` created by `_display_needed`;
  `none` means the instance still reads the class attribute, which is `0`. -/
  lastDisplay : Option Int
deriving DecidableEq

/-- Result of one modelled method call: final state, text written to
`self._stdout`, and the Python exception raised (if any). -/
structure DispResult where
  state : ProgressState
  out : String
  err : Option String
deriving DecidableEq

/-! ## String-formatting helpers (Python `%` operator and `str`) -/

/-- A single apostrophe, as a string. -/
def apos : String := String.singleton (Char.ofNat 39)

/-- A run of `n` spaces. -/
def spacesN (n : Nat) : String := String.mk (List.replicate n (Char.ofNat 32))

/-- Python `str.rjust`: left-pad with spaces to width `w`. -/
def rjustS (s : String) (w : Nat) : String :=
  if w ≤ s.length then s else spacesN (w - s.length) ++ s

/-- Python `"%<w>d" % i` for an integer value. -/
def fmtD (w : Nat) (i : Int) : String := rjustS (toString i) w

/-- Python `"%.2f" % q`: round half to even at two decimals.  The value is
an exact rational; with `d = q.den > 0` and `r = (q.num * 100).fmod d` the
fractional part of `q * 100` is `r / d`, so comparing it with `1/2` is
comparing `2 * r` with `d`. -/
def fmtF2 (q : ℚ) : String :=
  let n2 : Int := q.num * 100
  let d : Int := (q.den : Int)
  let f : Int := n2.fdiv d
  let r2 : Int := 2 * n2.fmod d
  let c : Int := if r2 < d then f else if d < r2 then f + 1
    else if f.fmod 2 = 0 then f else f + 1
  let sgn : String := if c < 0 then "-" else ""
  let m : Nat := c.natAbs
  sgn ++ toString (m / 100) ++ "." ++ (if m % 100 < 10 then "0" else "") ++ toString (m % 100)

/-- Python `"%<w>.2f" % q`. -/
def fmtF2w (w : Nat) (q : ℚ) : String := rjustS (fmtF2 q) w

/-- Python `"%s" % v` for a numeric value: integers print without a
fractional part; for non-integral values we reuse the two-decimal
rendering (the exact float `repr` is irrelevant to every claim below). -/
def ratRepr (q : ℚ) : String := if q.den = 1 then toString q.num else fmtF2 q

/-! ## `S3.Utils.formatSize` (external collaborator) -/

/-- Inner loop of the size formatter: repeatedly divide by 1024, walking a
finite ladder of unit prefixes. -/
def scaleSize : List String → ℚ → String → ℚ × String
  | [], v, acc => (v, acc)
  | c :: cs, v, acc => if v.num < 1024 * (v.den : Int) then (v, acc) else scaleSize cs (v / 1024) c

/-- Modelled from the spec: `S3.Utils.formatSize` is imported by
`S3/Progress.py` but its source is not part of this repository snapshot.
Per the spec it "maps a byte count to `(scaled_value: float, unit_prefix:
string)` using a binary (1024-based) magnitude ladder (empty, k, M, G, …)";
the trailing "B" is appended by the callers, and "the exact unit string is
implementation-defined".  It is a pure, total formatter: no claim below
depends on the exact numbers it returns, only on the fact that it returns. -/
def formatSize (size : ℚ) (human : Bool) (rate : Bool) : ℚ × String :=
  if human then scaleSize ["k", "M", "G", "T", "P", "E"] size "" else (size, "")

/-! ## Shared `Progress` machinery -/

/-- Python truthiness of an optional string (`None` and `""` are falsy). -/
def pyTruthyStr (o : Option String) : Bool :=
  match o with
  | none => false
  | some s => if s = "" then false else true

/-- Python truthiness of an optional integer (`None` and `0` are falsy). -/
def pyTruthy (o : Option Int) : Bool :=
  match o with
  | none => false
  | some n => if n = 0 then false else true

/-- Python `a or b` on integers (value semantics). -/
def pyOrInt (a b : Int) : Int := if a ≠ 0 then a else b

/-- The line written by `Progress.output_labels`:
the labels format string of the source, with the single quotes around source and destination. -/
def labelsLine (st : ProgressState) : String :=
  st.labels.action ++ ": " ++ apos ++ st.labels.source ++ apos ++ " -> " ++ apos
    ++ st.labels.destination ++ apos ++ "  " ++ st.labels.extra ++ "\n"

/-- Attribute lookup `self._last_display`: the instance attribute if it has
been assigned, otherwise the class attribute `Progress._last_display = 0`. -/
def lastDisplayVal (st : ProgressState) : Int := st.lastDisplay.getD 0

/-- The method `Progress._display_needed`: returns whether to redraw and (when it
returns `True`) assigns the instance attribute `self._last_display`.  The
two `time.time()` calls inside are modelled as the same sampled instant `t`. -/
def displayNeeded (st : ProgressState) (t : Int) : Bool × ProgressState :=
  if 1 < t - lastDisplayVal st then (true, { st with lastDisplay := some t })
  else (false, st)

/-! ## `Progress.display` (plain/milestone variant) -/

/-- The method `Progress.display(new_file, done_message)`.  Note three behaviours of
the source that the model reproduces exactly:
* `done_message` is never read by this base-class method;
* `rel_position = (current_position * 100) // total_size` raises
  `ZeroDivisionError` when `total_size == 0`;
* the milestone branch executes
  `self._stdout.write("%d%% ", self.last_milestone)` — `write` takes a
  single argument, so this call raises `TypeError` *after* the assignment
  to `self.last_milestone` and writes nothing. -/
def Progress.display (st : ProgressState) (new_file : Bool) (done_message : Option String) :
    DispResult :=
  if new_file then
    { state := { st with last_milestone := 0 }, out := labelsLine st, err := none }
  else if st.current_position = st.total_size then
    let print_size := formatSize (st.current_position : ℚ) true false
    let psUnit := if print_size.2 ≠ "" then print_size.2 ++ "B" else print_size.2
    let sec_elapsed : Int := st.time_current - st.time_start
    if sec_elapsed = 0 then
      { state := st, out := "", err := some "ZeroDivisionError" }
    else
      let print_speed :=
        formatSize (((st.current_position - st.initial_position : Int) : ℚ) / (sec_elapsed : ℚ))
          true true
      { state := st,
        out := "100%  " ++ ratRepr print_size.1 ++ psUnit ++ " in "
          ++ fmtF2 (sec_elapsed : ℚ) ++ "s (" ++ fmtF2 print_speed.1 ++ " "
          ++ print_speed.2 ++ "B/s)\n",
        err := none }
  else if st.total_size = 0 then
    { state := st, out := "", err := some "ZeroDivisionError" }
  else
    let rel_position : Int := (st.current_position * 100).fdiv st.total_size
    if st.last_milestone ≤ rel_position then
      { state := { st with last_milestone := rel_position.fdiv 5 * 5 },
        out := "", err := some "TypeError" }
    else
      { state := st, out := "", err := none }

/-! ## ANSI and carriage-return variants -/

def SCI : String := "\x1b["
def ANSI_save_cursor_pos : String := SCI ++ "s"
def ANSI_restore_cursor_pos : String := SCI ++ "u"
def ANSI_erase_to_eol : String := SCI ++ "0K"
def CR_char : String := "\x0d"

/-- The `"percent"` entry of the status-line dictionaries:
`self.total_size and ((self.current_position * 100) // self.total_size) or 0`.
The Python `and` operator short-circuits, so the division is only evaluated when
`total_size` is truthy (non-zero). -/
def ansiPercent (st : ProgressState) : Int :=
  pyOrInt (if st.total_size = 0 then st.total_size
           else (st.current_position * 100).fdiv st.total_size) 0

/-- The `print_speed` computation, textually identical in
`ProgressANSI.display` and `ProgressCR.display`: the rate is only computed
when `sec_elapsed > 0`, otherwise it degrades to `(0, "")`. -/
def speedPair (st : ProgressState) : ℚ × String :=
  let sec_elapsed : Int := st.time_current - st.time_start
  if 0 < sec_elapsed then
    formatSize (((st.current_position - st.initial_position : Int) : ℚ) / (sec_elapsed : ℚ))
      true true
  else ((0 : ℚ), "")

/-- The formatted status line of `ProgressANSI.display`:
`"%(current)s of %(total)s   %(percent)3d%% in %(elapsed)ds  %(speed).2f %(speed_coeff)sB/s"`. -/
def ansiStatusLine (st : ProgressState) : String :=
  rjustS (toString st.current_position) (toString st.total_size).length
    ++ " of " ++ toString st.total_size
    ++ "   " ++ fmtD 3 (ansiPercent st) ++ "% in "
    ++ toString (st.time_current - st.time_start) ++ "s  "
    ++ fmtF2 (speedPair st).1 ++ " " ++ (speedPair st).2 ++ "B/s"

/-- The formatted status line of `ProgressCR.display`:
`" %(current)s of %(total)s   %(percent)3d%% in %(elapsed)4ds  %(speed)7.2f %(speed_coeff)sB/s"`. -/
def crStatusLine (st : ProgressState) : String :=
  " " ++ rjustS (toString st.current_position) (toString st.total_size).length
    ++ " of " ++ toString st.total_size
    ++ "   " ++ fmtD 3 (ansiPercent st) ++ "% in "
    ++ fmtD 4 (st.time_current - st.time_start) ++ "s  "
    ++ fmtF2w 7 (speedPair st).1 ++ " " ++ (speedPair st).2 ++ "B/s"

/-- The statement `if done_message: self._stdout.write("  %s\n" % done_message)`. -/
def doneTail (dm : Option String) : String :=
  if pyTruthyStr dm then "  " ++ dm.getD "" ++ "\n" else ""

/-- Everything a non-suppressed `ProgressANSI.display` call writes. -/
def ansiRenderOut (st : ProgressState) (dm : Option String) : String :=
  ANSI_restore_cursor_pos ++ ANSI_erase_to_eol ++ ansiStatusLine st ++ doneTail dm

/-- Everything a non-suppressed `ProgressCR.display` call writes. -/
def crRenderOut (st : ProgressState) (dm : Option String) : String :=
  CR_char ++ crStatusLine st ++ doneTail dm

/-- The method `ProgressANSI.display(new_file, done_message)` at sampled wall-clock
instant `t`.  The suppression test is
`if not (new_file or done_message) and not self._display_needed(): return`;
`and` short-circuits, so a truthy `done_message` bypasses (and does not
update) the throttle timestamp. -/
def ProgressANSI.display (st : ProgressState) (t : Int) (new_file : Bool)
    (done_message : Option String) : DispResult :=
  if new_file then
    { state := st, out := labelsLine st ++ ANSI_save_cursor_pos, err := none }
  else if pyTruthyStr done_message then
    { state := st, out := ansiRenderOut st done_message, err := none }
  else
    let nd := displayNeeded st t
    if nd.1 then { state := nd.2, out := ansiRenderOut nd.2 done_message, err := none }
    else { state := st, out := "", err := none }

/-- The method `ProgressCR.display(new_file, done_message)` at sampled wall-clock
instant `t`; identical control flow to the ANSI variant, different text. -/
def ProgressCR.display (st : ProgressState) (t : Int) (new_file : Bool)
    (done_message : Option String) : DispResult :=
  if new_file then
    { state := st, out := labelsLine st, err := none }
  else if pyTruthyStr done_message then
    { state := st, out := crRenderOut st done_message, err := none }
  else
    let nd := displayNeeded st t
    if nd.1 then { state := nd.2, out := crRenderOut nd.2 done_message, err := none }
    else { state := st, out := "", err := none }

/-! ## `update`, `done`, `new_file` -/

/-- The method `Progress.update(current_position=-1, delta_position=-1)`.  The render
call `self.display()` dispatches on the class of the object, so the model takes
the concrete `display` as the parameter `disp`. -/
def Progress.update (disp : ProgressState → DispResult) (st : ProgressState) (now : Int)
    (current_position delta_position : Int) : DispResult :=
  let st1 := { st with time_last := st.time_current, time_current := now }
  let st2 :=
    if -1 < current_position then { st1 with current_position := current_position }
    else if -1 < delta_position then
      { st1 with current_position := st1.current_position + delta_position }
    else st1
  disp st2

/-- Calling `update` on a plain (base-class) `Progress` object. -/
def Progress.updatePlain (st : ProgressState) (now current_position delta_position : Int) :
    DispResult :=
  Progress.update (fun s => Progress.display s false none) st now current_position delta_position

/-- Calling `done(message)` on a plain `Progress` object. -/
def Progress.done (st : ProgressState) (message : String) : DispResult :=
  Progress.display st false (some message)

/-- Calling `done(message)` on a `ProgressANSI` object at wall-clock instant `t`. -/
def ProgressANSI.done (st : ProgressState) (t : Int) (message : String) : DispResult :=
  ProgressANSI.display st t false (some message)

/-- Calling `done(message)` on a `ProgressCR` object at wall-clock instant `t`. -/
def ProgressCR.done (st : ProgressState) (t : Int) (message : String) : DispResult :=
  ProgressCR.display st t false (some message)

/-- The method `Progress.new_file(labels, total_size)` on a plain `Progress` object:
resets positions, sets all three timestamps to `now`, then renders with
`new_file = True`. -/
def Progress.new_file (st : ProgressState) (labels : TransferLabels) (total_size : Int)
    (now : Int) : DispResult :=
  Progress.display
    { st with labels := labels, total_size := total_size, initial_position := 0,
              current_position := 0, time_start := now, time_last := now, time_current := now }
    true none

/-! ## `StatsInfo` -/

/-- The eight optional counters of `StatsInfo`, all `None` after `__init__`. -/
structure StatsInfo where
  files : Option Int
  size : Option Int
  files_transferred : Option Int
  size_transferred : Option Int
  files_copied : Option Int
  size_copied : Option Int
  files_deleted : Option Int
  size_deleted : Option Int
deriving DecidableEq

/-- The `" (%d bytes) "` suffix appended when the size counter is set. -/
def sizeSuffix (z : Option Int) : String :=
  match z with
  | none => ""
  | some n => " (" ++ toString n ++ " bytes) "

/-- The method `StatsInfo.format_output`, translated statement by statement: `outstr`
accumulates one block per category, in source order. -/
def StatsInfo.format_output (s : StatsInfo) : String :=
  let outstr : String := ""
  let outstr :=
    match s.files with
    | some n => outstr ++ "\nStats: " ++ ("Number of files: " ++ toString n ++ sizeSuffix s.size)
    | none => outstr
  let outstr :=
    match s.files_transferred with
    | some n =>
      if n ≠ 0 then
        outstr ++ "\nStats: "
          ++ ("Number of files transferred: " ++ toString n ++ sizeSuffix s.size_transferred)
      else outstr
    | none => outstr
  let outstr :=
    match s.files_copied with
    | some n =>
      if n ≠ 0 then
        outstr ++ "\nStats: "
          ++ ("Number of files copied: " ++ toString n ++ sizeSuffix s.size_copied)
      else outstr
    | none => outstr
  let outstr :=
    match s.files_deleted with
    | some n =>
      if n ≠ 0 then
        outstr ++ "\nStats: "
          ++ ("Number of files deleted: " ++ toString n ++ sizeSuffix s.size_deleted)
      else outstr
    | none => outstr
  outstr

/-- The block `format_output` contributes for the unconditional "files"
total: present whenever `files` is not `None`, even when it is `0`. -/
def filesPart (s : StatsInfo) : String :=
  match s.files with
  | none => ""
  | some n => "\nStats: " ++ ("Number of files: " ++ toString n ++ sizeSuffix s.size)

/-- The block contributed for the "transferred" category: present exactly
when the count is set and non-zero. -/
def transferredPart (s : StatsInfo) : String :=
  match s.files_transferred with
  | none => ""
  | some n =>
    if n ≠ 0 then
      "\nStats: " ++ ("Number of files transferred: " ++ toString n ++ sizeSuffix s.size_transferred)
    else ""

/-- The block contributed for the "copied" category. -/
def copiedPart (s : StatsInfo) : String :=
  match s.files_copied with
  | none => ""
  | some n =>
    if n ≠ 0 then
      "\nStats: " ++ ("Number of files copied: " ++ toString n ++ sizeSuffix s.size_copied)
    else ""

/-- The block contributed for the "deleted" category. -/
def deletedPart (s : StatsInfo) : String :=
  match s.files_deleted with
  | none => ""
  | some n =>
    if n ≠ 0 then
      "\nStats: " ++ ("Number of files deleted: " ++ toString n ++ sizeSuffix s.size_deleted)
    else ""


/-! ## Concrete states and update sequences used by the theorems -/

def lbl0 : TransferLabels := { action := "upload", source := "a.txt", destination := "b.txt", extra := "" }

def baseState : ProgressState :=
  { labels := lbl0, total_size := 0, initial_position := 0, current_position := 0,
    time_start := 0, time_last := 0, time_current := 0, last_milestone := 0, lastDisplay := none }

/-- Instance A for the C9 counterexample. -/
def instA : ProgressState := { baseState with total_size := 1000, current_position := 1 }

/-- A second, freshly constructed instance for the C9 counterexample: its
`_last_display` instance attribute is unset, so it reads the class value 0. -/
def instB : ProgressState := { baseState with total_size := 1000, current_position := 2 }

/-- State for the C4 counterexample: a fresh tracker. -/
def st4 : ProgressState := { baseState with total_size := 1000, current_position := 1 }

/-- A `StatsInfo` whose size fields are set while every count that gates
them is absent. -/
def statsW : StatsInfo := ⟨some 3, none, none, some 999, none, some 888, none, some 777⟩

structure UpdateCall where
  now : Int
  cur : Int
  del : Int
deriving DecidableEq

def posAfter (st : ProgressState) (cur del : Int) : Int :=
  if -1 < cur then cur
  else if -1 < del then st.current_position + del
  else st.current_position

def stepPlain (st : ProgressState) (c : UpdateCall) : ProgressState :=
  (Progress.updatePlain st c.now c.cur c.del).state

def runPlainUpdates (st : ProgressState) : List UpdateCall → ProgressState
  | [] => st
  | c :: cs => runPlainUpdates (stepPlain st c) cs

def callsInRange (st : ProgressState) : List UpdateCall → Prop
  | [] => True
  | c :: cs => posAfter st c.cur c.del ≤ st.total_size ∧ callsInRange (stepPlain st c) cs

def callsMonotone (st : ProgressState) : List UpdateCall → Prop
  | [] => True
  | c :: cs => st.current_position ≤ posAfter st c.cur c.del ∧ callsMonotone (stepPlain st c) cs

def milestoneInv (st : ProgressState) : Prop :=
  0 ≤ st.last_milestone ∧ st.last_milestone ≤ 100 ∧ (5 : Int) ∣ st.last_milestone

/-! ## Helper lemmas -/

lemma str_of_length_zero {s : String} (h : s.length = 0) : s = "" := by
  cases s with
  | mk data =>
    cases data with
    | nil => rfl
    | cons c cs => simp [String.length] at h

lemma append_ne_left {a : String} (h : a ≠ "") (b : String) : a ++ b ≠ "" := by
  intro hab
  have hl := congrArg String.length hab
  rw [String.length_append, String.length_empty] at hl
  exact h (str_of_length_zero (by omega))

lemma append_ne_right (a : String) {b : String} (h : b ≠ "") : a ++ b ≠ "" := by
  intro hab
  have hl := congrArg String.length hab
  rw [String.length_append, String.length_empty] at hl
  exact h (str_of_length_zero (by omega))

lemma labelsLine_ne (st : ProgressState) : labelsLine st ≠ "" :=
  append_ne_right _ (by decide)

lemma ansiRenderOut_ne (st : ProgressState) (dm : Option String) : ansiRenderOut st dm ≠ "" :=
  append_ne_left (append_ne_left (append_ne_left (by decide) _) _) _

lemma crRenderOut_ne (st : ProgressState) (dm : Option String) : crRenderOut st dm ≠ "" :=
  append_ne_left (append_ne_left (by decide) _) _

lemma ansiNewFileOut_ne (st : ProgressState) : labelsLine st ++ ANSI_save_cursor_pos ≠ "" :=
  append_ne_left (labelsLine_ne st) _

lemma ansi_err_none (st : ProgressState) (t : Int) (nf : Bool) (dm : Option String) :
    (ProgressANSI.display st t nf dm).err = none := by
  unfold ProgressANSI.display
  split
  · rfl
  · split
    · rfl
    · dsimp only
      split <;> rfl

lemma cr_err_none (st : ProgressState) (t : Int) (nf : Bool) (dm : Option String) :
    (ProgressCR.display st t nf dm).err = none := by
  unfold ProgressCR.display
  split
  · rfl
  · split
    · rfl
    · dsimp only
      split <;> rfl

lemma ansi_pass (st : ProgressState) (t : Int) (h : 1 < t - lastDisplayVal st) :
    ProgressANSI.display st t false none =
      { state := { st with lastDisplay := some t },
        out := ansiRenderOut { st with lastDisplay := some t } none, err := none } := by
  simp [ProgressANSI.display, pyTruthyStr, displayNeeded, h]

lemma ansi_suppressed (st : ProgressState) (t : Int) (h : ¬ 1 < t - lastDisplayVal st) :
    ProgressANSI.display st t false none = { state := st, out := "", err := none } := by
  simp [ProgressANSI.display, pyTruthyStr, displayNeeded, h]

lemma cr_pass (st : ProgressState) (t : Int) (h : 1 < t - lastDisplayVal st) :
    ProgressCR.display st t false none =
      { state := { st with lastDisplay := some t },
        out := crRenderOut { st with lastDisplay := some t } none, err := none } := by
  simp [ProgressCR.display, pyTruthyStr, displayNeeded, h]

lemma cr_suppressed (st : ProgressState) (t : Int) (h : ¬ 1 < t - lastDisplayVal st) :
    ProgressCR.display st t false none = { state := st, out := "", err := none } := by
  simp [ProgressCR.display, pyTruthyStr, displayNeeded, h]

lemma update_apply (disp : ProgressState → DispResult) (st : ProgressState)
    (now current_position delta_position : Int) :
    Progress.update disp st now current_position delta_position =
      disp { st with time_last := st.time_current, time_current := now,
                     current_position :=
                       if -1 < current_position then current_position
                       else if -1 < delta_position then st.current_position + delta_position
                       else st.current_position } := by
  unfold Progress.update
  by_cases h1 : -1 < current_position <;> by_cases h2 : -1 < delta_position <;> simp [h1, h2]


/-- C5: `update` advances `time_last` to the old `time_current`, samples the
clock into `time_current`, replaces the position when `current_position > -1`,
else adds `delta_position` when `delta_position > -1`, else leaves the
position unchanged — and in every case triggers exactly one render event. -/
theorem c5_update_semantics (disp : ProgressState → DispResult) (st : ProgressState)
    (now current_position delta_position : Int) :
    Progress.update disp st now current_position delta_position =
      disp { st with time_last := st.time_current, time_current := now,
                     current_position :=
                       if -1 < current_position then current_position
                       else if -1 < delta_position then st.current_position + delta_position
                       else st.current_position } :=
  update_apply disp st now current_position delta_position

/-- C1 counterexample: with `total_size = 0` and `current_position = 5`, a
render triggered by `update` raises `ZeroDivisionError` in the plain
variant. -/
theorem c1_plain_zero_total_raises :
    (Progress.updatePlain baseState 1 5 (-1)).err = some "ZeroDivisionError" := rfl

/-- C1 amended: with `total_size = 0`, the ANSI and CR variants never raise
and their percent computation yields 0; the plain variant raises
`ZeroDivisionError` whenever `current_position ≠ 0`. -/
theorem c1_zero_total_amended (st : ProgressState) (t : Int) (nf : Bool) (dm : Option String)
    (h : st.total_size = 0) :
    (ProgressANSI.display st t nf dm).err = none ∧
    (ProgressCR.display st t nf dm).err = none ∧
    ansiPercent st = 0 ∧
    (st.current_position ≠ 0 →
      ∀ dm2 : Option String, (Progress.display st false dm2).err = some "ZeroDivisionError") := by
  refine ⟨ansi_err_none st t nf dm, cr_err_none st t nf dm, ?_, ?_⟩
  · simp [ansiPercent, pyOrInt, h]
  · intro hp dm2
    simp [Progress.display, h, hp]

theorem c1_zero_total_amended_witness :
    ({ baseState with current_position := 5 } : ProgressState).total_size = 0 ∧
    ((ProgressANSI.display { baseState with current_position := 5 } 7 false none).err = none ∧
     (ProgressCR.display { baseState with current_position := 5 } 7 false none).err = none ∧
     ansiPercent { baseState with current_position := 5 } = 0 ∧
     (({ baseState with current_position := 5 } : ProgressState).current_position ≠ 0 →
       ∀ dm2 : Option String,
         (Progress.display { baseState with current_position := 5 } false dm2).err =
           some "ZeroDivisionError")) :=
  ⟨rfl, c1_zero_total_amended { baseState with current_position := 5 } 7 false none rfl⟩

/-- C2 counterexample: the plain variant drops the `done` message: at a
state below the milestone threshold, `done("ERROR")` writes nothing at all,
so the message does not appear in the output of every render variant. -/
theorem c2_plain_done_message_dropped :
    (Progress.done { baseState with total_size := 10, current_position := 3, last_milestone := 50 }
        "ERROR").out = "" ∧
    (Progress.done { baseState with total_size := 10, current_position := 3, last_milestone := 50 }
        "ERROR").err = none := ⟨rfl, rfl⟩

/-- C2 amended: for every non-empty message, the ANSI and CR variants append
`"  " ++ message ++ "\n"` to the status line they write; the plain
(base-class) variant ignores the message entirely — `done(m)` behaves
identically for every message. -/
theorem c2_done_message_amended (st : ProgressState) (t : Int) (m : String) (h : m ≠ "") :
    (∃ s1, (ProgressANSI.done st t m).out = s1 ++ ("  " ++ m ++ "\n")) ∧
    (∃ s2, (ProgressCR.done st t m).out = s2 ++ ("  " ++ m ++ "\n")) ∧
    ∀ m2 : String, Progress.done st m = Progress.done st m2 := by
  refine ⟨⟨ANSI_restore_cursor_pos ++ ANSI_erase_to_eol ++ ansiStatusLine st, ?_⟩,
          ⟨CR_char ++ crStatusLine st, ?_⟩, fun m2 => rfl⟩
  · simp [ProgressANSI.done, ProgressANSI.display, pyTruthyStr, h, ansiRenderOut, doneTail]
  · simp [ProgressCR.done, ProgressCR.display, pyTruthyStr, h, crRenderOut, doneTail]

theorem c2_done_message_amended_witness :
    ("done" : String) ≠ "" ∧
    ((∃ s1, (ProgressANSI.done baseState 0 "done").out = s1 ++ ("  " ++ "done" ++ "\n")) ∧
     (∃ s2, (ProgressCR.done baseState 0 "done").out = s2 ++ ("  " ++ "done" ++ "\n")) ∧
     ∀ m2 : String, Progress.done baseState "done" = Progress.done baseState m2) :=
  ⟨by decide, c2_done_message_amended baseState 0 "done" (by decide)⟩

/-- C3: at `total_size = 100`, `current_position = 10`, `last_milestone = 0`,
the milestone branch of the plain variant sets `last_milestone` to 10 but then
raises `TypeError` (the source passes two arguments to `stdout.write`), so
the fragment `"10% "` is never written. -/
theorem c3_milestone_write_type_error :
    (Progress.updatePlain { baseState with total_size := 100, current_position := 10 }
        1 10 (-1)).err = some "TypeError" ∧
    (Progress.updatePlain { baseState with total_size := 100, current_position := 10 }
        1 10 (-1)).out = "" ∧
    (Progress.updatePlain { baseState with total_size := 100, current_position := 10 }
        1 10 (-1)).state.last_milestone = 10 := ⟨rfl, rfl, rfl⟩

/-- C6 counterexample: at `total_size = current_position = 10` with
`time_current = time_start`, the 100%-completion path of the plain variant
raises `ZeroDivisionError` instead of degrading to a 0 rate. -/
theorem c6_plain_completion_zero_elapsed_raises :
    (Progress.updatePlain { baseState with total_size := 10, current_position := 10 }
        0 (-1) (-1)).err = some "ZeroDivisionError" := rfl

/-- C6 amended: with zero elapsed time (`time_current = time_start`) the
ANSI and CR variants never raise and their rate degrades to `(0, "")`; the
100%-completion path of the plain variant (`current_position = total_size`)
raises `ZeroDivisionError`. -/
theorem c6_zero_elapsed_amended (st : ProgressState) (t : Int) (nf : Bool) (dm : Option String)
    (h : st.time_current = st.time_start) :
    (ProgressANSI.display st t nf dm).err = none ∧
    (ProgressCR.display st t nf dm).err = none ∧
    speedPair st = ((0 : ℚ), "") ∧
    (st.current_position = st.total_size →
      (Progress.display st false none).err = some "ZeroDivisionError") := by
  refine ⟨ansi_err_none st t nf dm, cr_err_none st t nf dm, ?_, fun hc => ?_⟩
  · simp [speedPair, h]
  · simp [Progress.display, hc, h]

theorem c6_zero_elapsed_amended_witness :
    ({ baseState with total_size := 10, current_position := 10 } : ProgressState).time_current =
      ({ baseState with total_size := 10, current_position := 10 } : ProgressState).time_start ∧
    ((ProgressANSI.display { baseState with total_size := 10, current_position := 10 }
        3 false none).err = none ∧
     (ProgressCR.display { baseState with total_size := 10, current_position := 10 }
        3 false none).err = none ∧
     speedPair { baseState with total_size := 10, current_position := 10 } = ((0 : ℚ), "") ∧
     (({ baseState with total_size := 10, current_position := 10 } : ProgressState).current_position =
        ({ baseState with total_size := 10, current_position := 10 } : ProgressState).total_size →
       (Progress.display { baseState with total_size := 10, current_position := 10 }
          false none).err = some "ZeroDivisionError")) :=
  ⟨rfl, c6_zero_elapsed_amended { baseState with total_size := 10, current_position := 10 }
    3 false none rfl⟩

/-- C9 counterexample: instance A renders successfully at `t = 100`; a
fresh instance B attempts a regular render at `t = 101`, within 1 second of
the render of A, and it is *not* suppressed — the throttle timestamp written by
A is an instance attribute, not shared class state. -/
theorem c9_shared_throttle_cex :
    (ProgressANSI.display instA 100 false none).out ≠ "" ∧
    (101 : Int) - 100 ≤ 1 ∧
    (ProgressANSI.display instB 101 false none).out ≠ "" := by
  refine ⟨by decide, by decide, by decide⟩

/-- C9 amended: `self._last_display = time.time()` creates a per-instance
attribute, so the throttle timestamp is per-instance state whose initial
value is the class default 0.  A freshly constructed tracker (instance
attribute unset) reads 0 and is therefore never suppressed at any time
`t > 1`, no matter what other instances did; its first regular render
writes output and installs its own instance timestamp. -/
theorem c9_per_instance_throttle_amended (stB : ProgressState) (t : Int)
    (hfresh : stB.lastDisplay = none) (ht : 1 < t) :
    lastDisplayVal stB = 0 ∧
    (ProgressANSI.display stB t false none).out ≠ "" ∧
    (ProgressANSI.display stB t false none).state.lastDisplay = some t ∧
    (ProgressCR.display stB t false none).out ≠ "" ∧
    (ProgressCR.display stB t false none).state.lastDisplay = some t := by
  have h0 : lastDisplayVal stB = 0 := by simp [lastDisplayVal, hfresh]
  have hcond : 1 < t - lastDisplayVal stB := by rw [h0]; omega
  refine ⟨h0, ?_, ?_, ?_, ?_⟩
  · rw [ansi_pass stB t hcond]; exact ansiRenderOut_ne _ _
  · rw [ansi_pass stB t hcond]
  · rw [cr_pass stB t hcond]; exact crRenderOut_ne _ _
  · rw [cr_pass stB t hcond]

theorem c9_per_instance_throttle_amended_witness :
    instB.lastDisplay = none ∧ (1 : Int) < 101 ∧
    (lastDisplayVal instB = 0 ∧
     (ProgressANSI.display instB 101 false none).out ≠ "" ∧
     (ProgressANSI.display instB 101 false none).state.lastDisplay = some 101 ∧
     (ProgressCR.display instB 101 false none).out ≠ "" ∧
     (ProgressCR.display instB 101 false none).state.lastDisplay = some 101) :=
  ⟨rfl, by decide, c9_per_instance_throttle_amended instB 101 rfl (by decide)⟩

/-- C4 counterexample: a `done`-carrying render at `t1 = 100` produces
output but does not arm the throttle (the `and` short-circuits before
`_display_needed`), so a regular render at `t2 = 101` — within 1 second —
still produces output, contradicting the claim that it must be
suppressed. -/
theorem c4_throttle_claim_cex :
    (ProgressANSI.display st4 100 false (some "oops")).out ≠ "" ∧
    ¬ (1 : Int) < 101 - 100 ∧
    (ProgressANSI.display (ProgressANSI.display st4 100 false (some "oops")).state
        101 false none).out ≠ "" := by
  refine ⟨by decide, by decide, by decide⟩

/-- C4 amended: the throttle timestamp is only written by throttle-passing
regular renders.  For both the ANSI and CR variants: if a *regular*
(non-`new_file`, non-`done`) render at `t1` produced output, then a second
render at `t2` on the same instance produces output precisely when it is a
`new_file` announcement, or carries a (non-empty) `done_message`, or
`t2 - t1 > 1` second. -/
theorem c4_throttle_amended (st : ProgressState) (t1 t2 : Int) (nf : Bool) (dm : Option String)
    (hA : (ProgressANSI.display st t1 false none).out ≠ "")
    (hC : (ProgressCR.display st t1 false none).out ≠ "") :
    ((ProgressANSI.display (ProgressANSI.display st t1 false none).state t2 nf dm).out ≠ "" ↔
      nf = true ∨ pyTruthyStr dm = true ∨ 1 < t2 - t1) ∧
    ((ProgressCR.display (ProgressCR.display st t1 false none).state t2 nf dm).out ≠ "" ↔
      nf = true ∨ pyTruthyStr dm = true ∨ 1 < t2 - t1) := by
  have h1 : 1 < t1 - lastDisplayVal st := by
    by_contra hno
    rw [ansi_suppressed st t1 hno] at hA
    exact hA rfl
  have e1 : (ProgressANSI.display st t1 false none).state = { st with lastDisplay := some t1 } := by
    rw [ansi_pass st t1 h1]
  have e2 : (ProgressCR.display st t1 false none).state = { st with lastDisplay := some t1 } := by
    rw [cr_pass st t1 h1]
  rw [e1, e2]
  have hld : lastDisplayVal { st with lastDisplay := some t1 } = t1 := rfl
  constructor
  · cases nf with
    | true =>
      simp only [ProgressANSI.display, if_pos rfl]
      simpa using ansiNewFileOut_ne { st with lastDisplay := some t1 }
    | false =>
      by_cases hdm : pyTruthyStr dm = true
      · simp only [ProgressANSI.display, if_neg (Bool.false_ne_true), hdm, if_pos rfl]
        simpa [hdm] using ansiRenderOut_ne { st with lastDisplay := some t1 } dm
      · by_cases hth : 1 < t2 - t1
        · have : 1 < t2 - lastDisplayVal { st with lastDisplay := some t1 } := by
            rw [hld]; exact hth
          simp only [ProgressANSI.display, Bool.false_eq_true, if_false, hdm, displayNeeded,
            if_pos this, hth, or_true, iff_true]
          exact ansiRenderOut_ne _ dm
        · have : ¬ 1 < t2 - lastDisplayVal { st with lastDisplay := some t1 } := by
            rw [hld]; exact hth
          simp [ProgressANSI.display, hdm, displayNeeded, this, hth]
  · cases nf with
    | true =>
      simp only [ProgressCR.display, if_pos rfl]
      simpa using labelsLine_ne { st with lastDisplay := some t1 }
    | false =>
      by_cases hdm : pyTruthyStr dm = true
      · simp only [ProgressCR.display, if_neg (Bool.false_ne_true), hdm, if_pos rfl]
        simpa [hdm] using crRenderOut_ne { st with lastDisplay := some t1 } dm
      · by_cases hth : 1 < t2 - t1
        · have : 1 < t2 - lastDisplayVal { st with lastDisplay := some t1 } := by
            rw [hld]; exact hth
          simp only [ProgressCR.display, Bool.false_eq_true, if_false, hdm, displayNeeded,
            if_pos this, hth, or_true, iff_true]
          exact crRenderOut_ne _ dm
        · have : ¬ 1 < t2 - lastDisplayVal { st with lastDisplay := some t1 } := by
            rw [hld]; exact hth
          simp [ProgressCR.display, hdm, displayNeeded, this, hth]

theorem c4_throttle_amended_witness :
    (((ProgressANSI.display (ProgressANSI.display st4 100 false none).state
          102 false none).out ≠ "" ↔
        false = true ∨ pyTruthyStr none = true ∨ 1 < (102 : Int) - 100) ∧
     ((ProgressCR.display (ProgressCR.display st4 100 false none).state
          102 false none).out ≠ "" ↔
        false = true ∨ pyTruthyStr none = true ∨ 1 < (102 : Int) - 100)) :=
  c4_throttle_amended st4 100 102 false none (by decide) (by decide)

/-! ## Stats claims -/

lemma format_output_decomp (s : StatsInfo) :
    s.format_output = filesPart s ++ transferredPart s ++ copiedPart s ++ deletedPart s := by
  rcases s with ⟨f, z, ft, zt, fc, zc, fd, zd⟩
  simp only [StatsInfo.format_output, filesPart, transferredPart, copiedPart, deletedPart]
  cases f <;> cases ft <;> cases fc <;> cases fd <;>
    simp [String.empty_append, String.append_empty, String.append_assoc] <;>
    split_ifs <;>
    simp [String.empty_append, String.append_empty, String.append_assoc]

lemma transferredPart_empty {s : StatsInfo} (h : pyTruthy s.files_transferred = false) :
    transferredPart s = "" := by
  cases hft : s.files_transferred with
  | none => simp [transferredPart, hft]
  | some n =>
    rw [hft] at h
    by_cases hn : n = 0
    · simp [transferredPart, hft, hn]
    · simp [pyTruthy, hn] at h

lemma copiedPart_empty {s : StatsInfo} (h : pyTruthy s.files_copied = false) :
    copiedPart s = "" := by
  cases hft : s.files_copied with
  | none => simp [copiedPart, hft]
  | some n =>
    rw [hft] at h
    by_cases hn : n = 0
    · simp [copiedPart, hft, hn]
    · simp [pyTruthy, hn] at h

lemma deletedPart_empty {s : StatsInfo} (h : pyTruthy s.files_deleted = false) :
    deletedPart s = "" := by
  cases hft : s.files_deleted with
  | none => simp [deletedPart, hft]
  | some n =>
    rw [hft] at h
    by_cases hn : n = 0
    · simp [deletedPart, hft, hn]
    · simp [pyTruthy, hn] at h

/-- C8: `format_output` is exactly the concatenation, in the fixed order
total / transferred / copied / deleted, of the four per-category blocks
(each `"\nStats: Number of files <category>: <N>"` with an optional
`" (<size> bytes) "` suffix, emitted under the conditions encoded in
`filesPart` / `transferredPart` / `copiedPart` / `deletedPart`); and on
`files = 10`, `size = 2048`, all other fields absent, it produces exactly
`"\nStats: Number of files: 10 (2048 bytes) "`. -/
theorem c8_stats_format :
    (∀ s : StatsInfo,
      s.format_output = filesPart s ++ transferredPart s ++ copiedPart s ++ deletedPart s) ∧
    StatsInfo.format_output ⟨some 10, some 2048, none, none, none, none, none, none⟩ =
      "\nStats: Number of files: 10 (2048 bytes) " :=
  ⟨format_output_decomp, rfl⟩

/-- C10: when the count field of a category is `None` or `0`, `format_output`
emits no line at all for that category — its block is empty and the output
is just the other three blocks, whatever the size field of that category holds. -/
theorem c10_stats_size_without_count (s : StatsInfo) :
    (pyTruthy s.files_transferred = false →
      transferredPart s = "" ∧
      s.format_output = filesPart s ++ copiedPart s ++ deletedPart s) ∧
    (pyTruthy s.files_copied = false →
      copiedPart s = "" ∧
      s.format_output = filesPart s ++ transferredPart s ++ deletedPart s) ∧
    (pyTruthy s.files_deleted = false →
      deletedPart s = "" ∧
      s.format_output = filesPart s ++ transferredPart s ++ copiedPart s) := by
  refine ⟨fun h => ?_, fun h => ?_, fun h => ?_⟩
  · have hp := transferredPart_empty h
    exact ⟨hp, by rw [format_output_decomp, hp, String.append_empty]⟩
  · have hp := copiedPart_empty h
    exact ⟨hp, by rw [format_output_decomp, hp, String.append_empty]⟩
  · have hp := deletedPart_empty h
    exact ⟨hp, by rw [format_output_decomp, hp, String.append_empty]⟩

theorem c10_stats_size_without_count_witness :
    (transferredPart statsW = "" ∧
      statsW.format_output = filesPart statsW ++ copiedPart statsW ++ deletedPart statsW) ∧
    (copiedPart statsW = "" ∧
      statsW.format_output = filesPart statsW ++ transferredPart statsW ++ deletedPart statsW) ∧
    (deletedPart statsW = "" ∧
      statsW.format_output = filesPart statsW ++ transferredPart statsW ++ copiedPart statsW) :=
  ⟨(c10_stats_size_without_count statsW).1 rfl,
   (c10_stats_size_without_count statsW).2.1 rfl,
   (c10_stats_size_without_count statsW).2.2 rfl⟩

/-! ## C7 machinery -/

lemma stepPlain_eq (st : ProgressState) (c : UpdateCall) :
    stepPlain st c =
      (Progress.display
        { st with time_last := st.time_current, time_current := c.now,
                  current_position := posAfter st c.cur c.del } false none).state := by
  unfold stepPlain Progress.updatePlain posAfter
  rw [update_apply]

lemma milestone_next_bounds (total pos m : Int) (htot : 0 < total) (hpos : pos ≤ total)
    (hne : pos ≠ total) (hm0 : 0 ≤ m) (hm5 : (5 : Int) ∣ m)
    (hrel : m ≤ (pos * 100).fdiv total) :
    0 ≤ ((pos * 100).fdiv total).fdiv 5 * 5 ∧
    ((pos * 100).fdiv total).fdiv 5 * 5 ≤ 100 ∧
    (5 : Int) ∣ ((pos * 100).fdiv total).fdiv 5 * 5 ∧
    m ≤ ((pos * 100).fdiv total).fdiv 5 * 5 := by
  obtain ⟨k, hk⟩ := hm5
  have hlt : pos < total := lt_of_le_of_ne hpos hne
  have h1 := Int.fmod_add_fdiv (pos * 100) total
  have h2 : 0 ≤ (pos * 100).fmod total := Int.fmod_nonneg' _ htot
  have h3 : (pos * 100).fmod total < total := Int.fmod_lt_of_pos _ htot
  have hrel0 : 0 ≤ (pos * 100).fdiv total := le_trans hm0 hrel
  have hrel99 : (pos * 100).fdiv total ≤ 99 := by
    by_contra hcon
    have h100 : 100 ≤ (pos * 100).fdiv total := by omega
    have hmul : total * 100 ≤ total * ((pos * 100).fdiv total) :=
      mul_le_mul_of_nonneg_left h100 (by omega)
    linarith
  have h5 : ((pos * 100).fdiv total).fdiv 5 = (pos * 100).fdiv total / 5 :=
    Int.fdiv_eq_ediv _ (by norm_num)
  refine ⟨?_, ?_, dvd_mul_left 5 _, ?_⟩ <;> rw [h5] <;> omega

lemma stepPlain_total (st : ProgressState) (c : UpdateCall) :
    (stepPlain st c).total_size = st.total_size := by
  rw [stepPlain_eq]
  unfold Progress.display
  simp only [Bool.false_eq_true, if_false]
  split_ifs <;> rfl

lemma milestone_step (st : ProgressState) (c : UpdateCall) (htot : 0 < st.total_size)
    (hinv : milestoneInv st) (hle : posAfter st c.cur c.del ≤ st.total_size) :
    milestoneInv (stepPlain st c) ∧ st.last_milestone ≤ (stepPlain st c).last_milestone := by
  rw [stepPlain_eq]
  unfold Progress.display
  simp only [Bool.false_eq_true, if_false]
  by_cases h1 : posAfter st c.cur c.del = st.total_size
  · rw [if_pos h1]
    by_cases h2 : c.now - st.time_start = 0
    · rw [if_pos h2]
      exact ⟨hinv, le_refl _⟩
    · rw [if_neg h2]
      exact ⟨hinv, le_refl _⟩
  · rw [if_neg h1]
    have h3 : ¬ st.total_size = 0 := by omega
    rw [if_neg h3]
    by_cases h4 : st.last_milestone ≤ (posAfter st c.cur c.del * 100).fdiv st.total_size
    · rw [if_pos h4]
      have hb := milestone_next_bounds st.total_size (posAfter st c.cur c.del) st.last_milestone
        htot hle h1 hinv.1 hinv.2.2 h4
      exact ⟨⟨hb.1, hb.2.1, hb.2.2.1⟩, hb.2.2.2⟩
    · rw [if_neg h4]
      exact ⟨hinv, le_refl _⟩

lemma runPlainUpdates_total (st : ProgressState) (l : List UpdateCall) :
    (runPlainUpdates st l).total_size = st.total_size := by
  induction l generalizing st with
  | nil => rfl
  | cons c cs ih => rw [runPlainUpdates, ih, stepPlain_total]

lemma runPlainUpdates_append (st : ProgressState) (l1 l2 : List UpdateCall) :
    runPlainUpdates st (l1 ++ l2) = runPlainUpdates (runPlainUpdates st l1) l2 := by
  induction l1 generalizing st with
  | nil => rfl
  | cons c cs ih => simp [runPlainUpdates, ih]

lemma callsInRange_append (st : ProgressState) (l1 l2 : List UpdateCall)
    (h : callsInRange st (l1 ++ l2)) :
    callsInRange st l1 ∧ callsInRange (runPlainUpdates st l1) l2 := by
  induction l1 generalizing st with
  | nil => exact ⟨trivial, h⟩
  | cons c cs ih =>
    obtain ⟨h1, h2⟩ := h
    obtain ⟨ha, hb⟩ := ih (stepPlain st c) h2
    exact ⟨⟨h1, ha⟩, hb⟩

lemma milestoneInv_run (l : List UpdateCall) (st : ProgressState) (htot : 0 < st.total_size)
    (hinv : milestoneInv st) (hrange : callsInRange st l) :
    milestoneInv (runPlainUpdates st l) ∧
    st.last_milestone ≤ (runPlainUpdates st l).last_milestone := by
  induction l generalizing st with
  | nil => exact ⟨hinv, le_refl _⟩
  | cons c cs ih =>
    obtain ⟨h1, h2⟩ := hrange
    have hs := milestone_step st c htot hinv h1
    have htot2 : 0 < (stepPlain st c).total_size := by rw [stepPlain_total]; exact htot
    obtain ⟨ha, hb⟩ := ih (stepPlain st c) htot2 hs.1 h2
    exact ⟨ha, le_trans hs.2 hb⟩

/-- C7 counterexample: after `new_file` with `total_size = 1`, the single
(non-decreasing) update `update(2)` drives `last_milestone` to 200, outside
`[0, 100]` — the claim omits the hypothesis `current_position ≤ total_size`. -/
theorem c7_milestone_range_cex :
    (Progress.new_file baseState lbl0 1 0).state.total_size = 1 ∧
    (Progress.new_file baseState lbl0 1 0).state.current_position ≤ 2 ∧
    (runPlainUpdates (Progress.new_file baseState lbl0 1 0).state
        [{ now := 1, cur := 2, del := -1 }]).last_milestone = 200 ∧
    ¬ ((200 : Int) ≤ 100) := ⟨rfl, by decide, rfl, by decide⟩

/-- C7 amended: across any sequence of `update` calls after `new_file` with
non-decreasing positions that also stay `≤ total_size` (with
`total_size > 0`), `last_milestone` satisfies the invariant — a multiple of
5 in `[0, 100]` — at every prefix of the sequence, and it never decreases
from any prefix to the full sequence. -/
theorem c7_milestone_invariant_amended (st0 : ProgressState) (lb : TransferLabels)
    (total now : Int) (calls l1 l2 : List UpdateCall) (htot : 0 < total)
    (hsplit : calls = l1 ++ l2)
    (hmono : callsMonotone (Progress.new_file st0 lb total now).state calls)
    (hrange : callsInRange (Progress.new_file st0 lb total now).state calls) :
    milestoneInv (runPlainUpdates (Progress.new_file st0 lb total now).state l1) ∧
    (runPlainUpdates (Progress.new_file st0 lb total now).state l1).last_milestone ≤
      (runPlainUpdates (Progress.new_file st0 lb total now).state calls).last_milestone := by
  subst hsplit
  set stI := (Progress.new_file st0 lb total now).state with hI
  have hmil : stI.last_milestone = 0 := rfl
  have htotI : 0 < stI.total_size := htot
  have hinv : milestoneInv stI := by
    unfold milestoneInv
    rw [hmil]
    exact ⟨le_refl 0, by norm_num, dvd_zero 5⟩
  obtain ⟨hr1, hr2⟩ := callsInRange_append stI l1 l2 hrange
  have hA := milestoneInv_run l1 stI htotI hinv hr1
  have htotl1 : 0 < (runPlainUpdates stI l1).total_size := by
    rw [runPlainUpdates_total]; exact htotI
  have hB := milestoneInv_run l2 (runPlainUpdates stI l1) htotl1 hA.1 hr2
  rw [runPlainUpdates_append]
  exact ⟨hA.1, hB.2⟩

theorem c7_milestone_invariant_amended_witness :
    milestoneInv (runPlainUpdates (Progress.new_file baseState lbl0 10 0).state
      [{ now := 1, cur := 5, del := -1 }]) ∧
    (runPlainUpdates (Progress.new_file baseState lbl0 10 0).state
        [{ now := 1, cur := 5, del := -1 }]).last_milestone ≤
      (runPlainUpdates (Progress.new_file baseState lbl0 10 0).state
        [{ now := 1, cur := 5, del := -1 }]).last_milestone :=
  c7_milestone_invariant_amended baseState lbl0 10 0
    [{ now := 1, cur := 5, del := -1 }] [{ now := 1, cur := 5, del := -1 }] []
    (by decide) rfl ⟨by decide, trivial⟩ ⟨by decide, trivial⟩
